import Mathlib

/-!
Shallow embedding of the proofgate-python SDK (src/proofgate/client.py,
src/proofgate/types.py, src/proofgate/exceptions.py) and of the example
signer service (src/examples/signer_service/main.py).

JSON values are modelled by an inductive `Json`; the HTTP transport is a
parameter (a function from the built request to the transport outcome), so
every client method becomes a pure function of its configuration, its
arguments and the transport.  Python exceptions become an explicit outcome
type: `ProofGateError` (the SDK's single exception class) is one variant,
and a pydantic schema-validation failure is a distinct variant, since
`pydantic.ValidationError` is not a `ProofGateError`.
-/

set_option autoImplicit false

/-- A JSON value, as produced by `response.json()` and consumed by
`ValidateResponse.model_validate`.  Numbers are modelled as integers: every
numeric field the SDK touches (status codes, chain ids) is integral. -/
inductive Json where
  | null
  | bool (b : Bool)
  | num (n : Int)
  | str (s : String)
  | arr (xs : List Json)
  | obj (fields : List (String × Json))
deriving Repr

/-- Python dict lookup: first binding of the key in an object, `none`
otherwise (also on non-objects; the claims only quantify over dict bodies). -/
def Json.getField : Json → String → Option Json
  | .obj fields, k => fields.lookup k
  | _, _ => none

/-- The keys of a JSON object, in order. -/
def Json.keys : Json → List String
  | .obj fields => fields.map Prod.fst
  | _ => []

/-- Python truthiness of a JSON value (`bool(x)` for the decoded value):
`None`, `False`, `0`, `""`, `[]` and `{}` are falsy. -/
def jsonTruthy : Json → Bool
  | .null => false
  | .bool b => b
  | .num n => n != 0
  | .str s => s != ""
  | .arr xs => !xs.isEmpty
  | .obj fields => !fields.isEmpty

/-- Python `dict.get(k)`: the value when present, `None` otherwise. -/
def pyGet (d : Json) (k : String) : Json :=
  (d.getField k).getD .null

/-- Python `a or b` on decoded JSON values. -/
def pyOr (a b : Json) : Json :=
  if jsonTruthy a then a else b

/-- Python `a or b` where `a : Optional[str]` falls back on `None` and `""`. -/
def pyOrStr (a b : Option String) : Option String :=
  match a with
  | some s => if s = "" then b else some s
  | none => b

/-- Python `a or b` where `a : Optional[int]` falls back on `None` and `0`. -/
def pyOrInt (a : Option Int) (b : Int) : Int :=
  match a with
  | some n => if n = 0 then b else n
  | none => b

/-- Serialization of an `Optional[str]` into a JSON value (`None` → `null`). -/
def jsonOfOptStr : Option String → Json
  | some s => .str s
  | none => .null

/-! ## types.py -/

/-- `ProofGateConfig` (src/proofgate/types.py).  `timeout` is Python float
seconds; no claim depends on its arithmetic, so it is carried as a `Nat`. -/
structure ProofGateConfig where
  api_key : String
  base_url : String
  chain_id : Int
  guardrail_id : Option String
  timeout : Nat
deriving Repr, DecidableEq

/-- The pydantic field defaults of `ProofGateConfig`: arguments the caller
omits (`none`) take the model-level default declared in types.py. -/
structure ProofGateConfigArgs where
  api_key : String
  base_url : Option String
  chain_id : Option Int
  guardrail_id : Option (Option String)
  timeout : Option Nat
deriving Repr

/-- Constructing a `ProofGateConfig` pydantic model: omitted fields take the
defaults declared in types.py (`base_url` production URL, `chain_id = 8453`,
`guardrail_id = None`, `timeout = 30`). -/
def ProofGateConfig.model_construct (a : ProofGateConfigArgs) : ProofGateConfig :=
  { api_key := a.api_key
    base_url := a.base_url.getD "https://www.proofgate.xyz/api"
    chain_id := a.chain_id.getD 8453
    guardrail_id := (a.guardrail_id.getD none)
    timeout := a.timeout.getD 30 }

/-- Severity literal of a `ValidationCheck`. -/
inductive Severity where
  | info
  | warning
  | critical
deriving Repr, DecidableEq

/-- `ValidationCheck` (src/proofgate/types.py). -/
structure ValidationCheck where
  name : String
  passed : Bool
  details : String
  severity : Severity
deriving Repr, DecidableEq

/-- The `result` literal of a `ValidateResponse`: PASS, FAIL or PENDING. -/
inductive VResult where
  | PASS
  | FAIL
  | PENDING
deriving Repr, DecidableEq

/-- Wire spelling of a `result` literal. -/
def VResult.toWire : VResult → String
  | .PASS => "PASS"
  | .FAIL => "FAIL"
  | .PENDING => "PENDING"

/-- `ValidateResponse` (src/proofgate/types.py). -/
structure ValidateResponse where
  validation_id : String
  result : VResult
  reason : String
  evidence_uri : String
  safe : Bool
  checks : List ValidationCheck
  chain_id : Int
  authenticated : Bool
  tier : String
  backend : String
  on_chain_recorded : Bool
deriving Repr, DecidableEq

/-! ### pydantic deserialization of ValidateResponse

`model_validate` with `populate_by_name = True`: an aliased field is read
from its alias first, then from its field name.  A required field that is
missing or has the wrong shape makes validation fail (`none`); a field with
a declared default takes it only when the key is absent. -/

/-- Field lookup honoring `populate_by_name`: alias first, then name. -/
def lookupAliased (j : Json) (aliasKey fieldName : String) : Option Json :=
  (j.getField aliasKey).orElse (fun _ => j.getField fieldName)

/-- A required `str` field: present and a string, else validation fails. -/
def asStr : Option Json → Option String
  | some (.str s) => some s
  | _ => none

/-- A required `bool` field. -/
def asBool : Option Json → Option Bool
  | some (.bool b) => some b
  | _ => none

/-- A required `int` field. -/
def asInt : Option Json → Option Int
  | some (.num n) => some n
  | _ => none

/-- A `str` field with a default: absent → default, present non-string → fail. -/
def asStrD (o : Option Json) (d : String) : Option String :=
  match o with
  | none => some d
  | some (.str s) => some s
  | some _ => none

/-- A `bool` field with a default. -/
def asBoolD (o : Option Json) (d : Bool) : Option Bool :=
  match o with
  | none => some d
  | some (.bool b) => some b
  | some _ => none

/-- The `Literal["PASS","FAIL","PENDING"]` field. -/
def parseVResult : Option Json → Option VResult
  | some (.str "PASS") => some .PASS
  | some (.str "FAIL") => some .FAIL
  | some (.str "PENDING") => some .PENDING
  | _ => none

/-- The `Literal["info","warning","critical"]` severity field. -/
def parseSeverity : Option Json → Option Severity
  | some (.str "info") => some .info
  | some (.str "warning") => some .warning
  | some (.str "critical") => some .critical
  | _ => none

/-- `ValidationCheck.model_validate`. -/
def ValidationCheck.model_validate (j : Json) : Option ValidationCheck := do
  let name ← asStr (j.getField "name")
  let passed ← asBool (j.getField "passed")
  let details ← asStr (j.getField "details")
  let severity ← parseSeverity (j.getField "severity")
  pure { name := name, passed := passed, details := details, severity := severity }

/-- The `checks` field: `default_factory=list`, so absent → `[]`; present it
must be an array of valid `ValidationCheck`s. -/
def parseChecks : Option Json → Option (List ValidationCheck)
  | none => some []
  | some (.arr xs) => xs.mapM ValidationCheck.model_validate
  | some _ => none

/-- `ValidateResponse.model_validate` (pydantic, `populate_by_name = True`).
`none` stands for a raised `pydantic.ValidationError`. -/
def ValidateResponse.model_validate (j : Json) : Option ValidateResponse := do
  let vid ← asStr (lookupAliased j "validationId" "validation_id")
  let result ← parseVResult (j.getField "result")
  let reason ← asStr (j.getField "reason")
  let evidence ← asStr (lookupAliased j "evidenceUri" "evidence_uri")
  let safe ← asBool (j.getField "safe")
  let checks ← parseChecks (j.getField "checks")
  let cid ← asInt (lookupAliased j "chainId" "chain_id")
  let auth ← asBoolD (j.getField "authenticated") false
  let tier ← asStrD (j.getField "tier") "free"
  let backend ← asStrD (j.getField "backend") "local"
  let ocr ← asBoolD (lookupAliased j "onChainRecorded" "on_chain_recorded") false
  pure { validation_id := vid, result := result, reason := reason
         evidence_uri := evidence, safe := safe, checks := checks
         chain_id := cid, authenticated := auth, tier := tier
         backend := backend, on_chain_recorded := ocr }

/-! ## exceptions.py -/

/-- `ProofGateError` (src/proofgate/exceptions.py), the SDK's single
exception class.  `message` is a JSON value because the `API_ERROR` path
passes through whatever `data.get("error")` produced. -/
structure ProofGateError where
  message : Json
  code : String
  status_code : Option Nat
  validation_result : Option ValidateResponse
deriving Repr

/-! ## HTTP transport model -/

/-- The request handed to the httpx client: method, path and JSON body. -/
structure HttpRequest where
  method : String
  path : String
  body : Option Json
deriving Repr

/-- A completed HTTP exchange: status code and decoded JSON body. -/
structure HttpResponse where
  statusCode : Nat
  body : Json
deriving Repr

/-- `response.is_success`: 2xx status. -/
def isSuccessStatus (n : Nat) : Bool :=
  decide (200 ≤ n ∧ n < 300)

/-- Outcome of one transport call: a completed response, or a raised httpx
exception.  `httpx.TimeoutException` is a subclass of `httpx.RequestError`;
the flag records which one was raised, and the client's `except` clauses
are tried in source order. -/
inductive TransportOutcome where
  | success (r : HttpResponse)
  | exn (isTimeout : Bool) (msg : String)
deriving Repr

/-- The transport: what the httpx client does with the built request. -/
def Transport : Type := HttpRequest → TransportOutcome

/-- Outcome of a Python call in the SDK: a value, a raised `ProofGateError`,
or a raised `pydantic.ValidationError` (which is NOT a `ProofGateError`). -/
inductive PyOutcome (α : Type) where
  | ok (a : α)
  | pgError (e : ProofGateError)
  | pydanticError
deriving Repr

/-- Whether an outcome is an error of the SDK's own error family
(`ProofGateError`): the one kind callers can pattern-match on. -/
def isProofGateFamilyError {α : Type} : PyOutcome α → Bool
  | .pgError _ => true
  | _ => false

/-! ## client.py -/

/-- An observable side effect of client construction: the claims need to see
that the key checks happen before the httpx session is created and that the
constructor performs no network call. -/
inductive InitEffect where
  | createSession (base_url : String) (timeout : Nat) (api_key_header : String)
  | networkCall (req : HttpRequest)
deriving Repr

/-- Default `base_url` of both constructors. -/
def clientDefaultBaseUrl : String := "https://www.proofgate.xyz/api"

/-- Default `chain_id` of both constructors (`chain_id: int = 56`). -/
def clientDefaultChainId : Int := 56

/-- Default `timeout` of both constructors (30 seconds). -/
def clientDefaultTimeout : Nat := 30

/-- Python `str()` of a decoded JSON value, for exception messages.  Every
message the SDK itself constructs is a scalar; a composite value can only
arrive as a server-sent `error` field, and no claim observes its exact
Python rendering, so composites render as an empty string here. -/
def Json.pyStr : Json → String
  | .null => "None"
  | .bool true => "True"
  | .bool false => "False"
  | .num n => toString n
  | .str s => s
  | .arr _ => ""
  | .obj _ => ""

/-- `ProofGateError.__str__`. -/
def ProofGateError.pyStr (e : ProofGateError) : String :=
  "[" ++ e.code ++ "] " ++ e.message.pyStr

/-- Python `str.startswith` (= `String.startsWith`), stated over the
character lists so that concrete instances reduce by `rfl`/`decide`. -/
def pyStartsWith (s p : String) : Bool :=
  p.data.isPrefixOf s.data

namespace AsyncProofGate

/-- `AsyncProofGate.__init__`: validates the API key, then builds the
`ProofGateConfig` (passing every field) and creates the httpx session.
Returns the effects performed, and the raised error or the configuration.
Note both raises happen with an empty effect list, and no `networkCall`
effect occurs on any path. -/
def init (api_key : String) (base_url : String) (chain_id : Int)
    (guardrail_id : Option String) (timeout : Nat) :
    List InitEffect × Except ProofGateError ProofGateConfig :=
  if api_key = "" then
    ([], .error { message := .str "API key is required. Get one at https://www.proofgate.xyz/dashboard"
                  code := "MISSING_API_KEY", status_code := none, validation_result := none })
  else if ¬ pyStartsWith api_key "pg_" then
    ([], .error { message := .str "Invalid API key format. Keys start with \"pg_\""
                  code := "INVALID_API_KEY", status_code := none, validation_result := none })
  else
    ([.createSession base_url timeout api_key],
     .ok (ProofGateConfig.model_construct
       { api_key := api_key, base_url := some base_url, chain_id := some chain_id
         guardrail_id := some guardrail_id, timeout := some timeout }))

/-- `AsyncProofGate._request`: one transport call; non-2xx responses raise
`API_ERROR` with `data.get("error") or data.get("message") or "HTTP <n>"`;
`httpx.TimeoutException` is caught first (`TIMEOUT`), then any other
`httpx.RequestError` (`NETWORK_ERROR`). -/
def _request (transport : Transport) (method path : String) (json : Option Json) :
    PyOutcome Json :=
  match transport { method := method, path := path, body := json } with
  | .success response =>
      if ¬ isSuccessStatus response.statusCode then
        .pgError { message := pyOr (pyGet response.body "error")
                     (pyOr (pyGet response.body "message")
                       (.str ("HTTP " ++ toString response.statusCode)))
                   code := "API_ERROR"
                   status_code := some response.statusCode
                   validation_result := none }
      else
        .ok response.body
  | .exn true _ =>
      .pgError { message := .str "Request timeout", code := "TIMEOUT"
                 status_code := none, validation_result := none }
  | .exn false msg =>
      .pgError { message := .str msg, code := "NETWORK_ERROR"
                 status_code := none, validation_result := none }

/-- The JSON body `AsyncProofGate.validate` sends: per-call `guardrail_id`
and `chain_id` combined with the configured defaults by Python `or`. -/
def validateBody (cfg : ProofGateConfig) (from_address to_address data value : String)
    (guardrail_id : Option String) (chain_id : Option Int) : Json :=
  .obj [("from", .str from_address), ("to", .str to_address), ("data", .str data),
        ("value", .str value),
        ("guardrailId", jsonOfOptStr (pyOrStr guardrail_id cfg.guardrail_id)),
        ("chainId", .num (pyOrInt chain_id cfg.chain_id))]

/-- The single HTTP request `AsyncProofGate.validate` issues. -/
def validateHttpRequest (cfg : ProofGateConfig) (from_address to_address data value : String)
    (guardrail_id : Option String) (chain_id : Option Int) : HttpRequest :=
  { method := "POST", path := "/validate"
    body := some (validateBody cfg from_address to_address data value guardrail_id chain_id) }

/-- `AsyncProofGate.validate`: POST /validate, then
`ValidateResponse.model_validate` on the returned body. -/
def validate (cfg : ProofGateConfig) (from_address to_address data value : String)
    (guardrail_id : Option String) (chain_id : Option Int) (transport : Transport) :
    PyOutcome ValidateResponse :=
  match _request transport "POST" "/validate"
      (some (validateBody cfg from_address to_address data value guardrail_id chain_id)) with
  | .ok response =>
      match ValidateResponse.model_validate response with
      | some r => .ok r
      | none => .pydanticError
  | .pgError e => .pgError e
  | .pydanticError => .pydanticError

/-- `AsyncProofGate.validate_or_throw`: calls `validate`; if the result is
not safe, raises `ProofGateError(result.reason, "VALIDATION_FAILED",
validation_result=result)`; otherwise returns the result unchanged. -/
def validate_or_throw (cfg : ProofGateConfig) (from_address to_address data value : String)
    (guardrail_id : Option String) (chain_id : Option Int) (transport : Transport) :
    PyOutcome ValidateResponse :=
  match validate cfg from_address to_address data value guardrail_id chain_id transport with
  | .ok result =>
      if ¬ result.safe then
        .pgError { message := .str result.reason, code := "VALIDATION_FAILED"
                   status_code := none, validation_result := some result }
      else
        .ok result
  | .pgError e => .pgError e
  | .pydanticError => .pydanticError

end AsyncProofGate

namespace ProofGate

/-- `ProofGate.__init__` (synchronous client): same key validation, config
construction and session creation as the async constructor. -/
def init (api_key : String) (base_url : String) (chain_id : Int)
    (guardrail_id : Option String) (timeout : Nat) :
    List InitEffect × Except ProofGateError ProofGateConfig :=
  if api_key = "" then
    ([], .error { message := .str "API key is required. Get one at https://www.proofgate.xyz/dashboard"
                  code := "MISSING_API_KEY", status_code := none, validation_result := none })
  else if ¬ pyStartsWith api_key "pg_" then
    ([], .error { message := .str "Invalid API key format. Keys start with \"pg_\""
                  code := "INVALID_API_KEY", status_code := none, validation_result := none })
  else
    ([.createSession base_url timeout api_key],
     .ok (ProofGateConfig.model_construct
       { api_key := api_key, base_url := some base_url, chain_id := some chain_id
         guardrail_id := some guardrail_id, timeout := some timeout }))

/-- `ProofGate._request` (synchronous): same mapping as the async client. -/
def _request (transport : Transport) (method path : String) (json : Option Json) :
    PyOutcome Json :=
  match transport { method := method, path := path, body := json } with
  | .success response =>
      if ¬ isSuccessStatus response.statusCode then
        .pgError { message := pyOr (pyGet response.body "error")
                     (pyOr (pyGet response.body "message")
                       (.str ("HTTP " ++ toString response.statusCode)))
                   code := "API_ERROR"
                   status_code := some response.statusCode
                   validation_result := none }
      else
        .ok response.body
  | .exn true _ =>
      .pgError { message := .str "Request timeout", code := "TIMEOUT"
                 status_code := none, validation_result := none }
  | .exn false msg =>
      .pgError { message := .str msg, code := "NETWORK_ERROR"
                 status_code := none, validation_result := none }

/-- The JSON body `ProofGate.validate` sends. -/
def validateBody (cfg : ProofGateConfig) (from_address to_address data value : String)
    (guardrail_id : Option String) (chain_id : Option Int) : Json :=
  .obj [("from", .str from_address), ("to", .str to_address), ("data", .str data),
        ("value", .str value),
        ("guardrailId", jsonOfOptStr (pyOrStr guardrail_id cfg.guardrail_id)),
        ("chainId", .num (pyOrInt chain_id cfg.chain_id))]

/-- The single HTTP request `ProofGate.validate` issues. -/
def validateHttpRequest (cfg : ProofGateConfig) (from_address to_address data value : String)
    (guardrail_id : Option String) (chain_id : Option Int) : HttpRequest :=
  { method := "POST", path := "/validate"
    body := some (validateBody cfg from_address to_address data value guardrail_id chain_id) }

/-- `ProofGate.validate` (synchronous). -/
def validate (cfg : ProofGateConfig) (from_address to_address data value : String)
    (guardrail_id : Option String) (chain_id : Option Int) (transport : Transport) :
    PyOutcome ValidateResponse :=
  match _request transport "POST" "/validate"
      (some (validateBody cfg from_address to_address data value guardrail_id chain_id)) with
  | .ok response =>
      match ValidateResponse.model_validate response with
      | some r => .ok r
      | none => .pydanticError
  | .pgError e => .pgError e
  | .pydanticError => .pydanticError

/-- `ProofGate.validate_or_throw` (synchronous). -/
def validate_or_throw (cfg : ProofGateConfig) (from_address to_address data value : String)
    (guardrail_id : Option String) (chain_id : Option Int) (transport : Transport) :
    PyOutcome ValidateResponse :=
  match validate cfg from_address to_address data value guardrail_id chain_id transport with
  | .ok result =>
      if ¬ result.safe then
        .pgError { message := .str result.reason, code := "VALIDATION_FAILED"
                   status_code := none, validation_result := some result }
      else
        .ok result
  | .pgError e => .pgError e
  | .pydanticError => .pydanticError

end ProofGate

/-- The module-level helper `is_transaction_safe`: constructs a `ProofGate`
with default options, calls `validate`, and returns `result.safe`. -/
def is_transaction_safe (api_key from_address to_address data value : String)
    (transport : Transport) : PyOutcome Bool :=
  match (ProofGate.init api_key clientDefaultBaseUrl clientDefaultChainId
      none clientDefaultTimeout).2 with
  | .error e => .pgError e
  | .ok cfg =>
      match ProofGate.validate cfg from_address to_address data value none none transport with
      | .ok result => .ok result.safe
      | .pgError e => .pgError e
      | .pydanticError => .pydanticError

/-! ## examples/signer_service/main.py -/

/-- Wire spelling of a severity literal. -/
def Severity.toWire : Severity → String
  | .info => "info"
  | .warning => "warning"
  | .critical => "critical"

/-- Flask `jsonify` applied to the handler's `validation` sub-object
`{"result": ..., "reason": ..., "checks": validation.checks}`.  The checks
are pydantic `ValidationCheck` model instances, which Flask's JSON provider
cannot serialize: with a non-empty checks list `jsonify` raises
`TypeError("Object of type ValidationCheck is not JSON serializable")`;
only an empty list serializes (to `[]`). -/
def validationJsonify (v : ValidateResponse) : Except String Json :=
  if v.checks.isEmpty then
    .ok (.obj [("result", .str v.result.toWire), ("reason", .str v.reason),
               ("checks", .arr [])])
  else
    .error "Object of type ValidationCheck is not JSON serializable"

/-- Outcome of building, signing and broadcasting the chain transaction.
The web3/eth_account calls are outside this repository, so they are an
oracle: a transaction hash, or a raised exception with a message. -/
inductive SignOutcome where
  | sent (txHash : String)
  | exn (msg : String)
deriving Repr

/-- The `POST /execute` handler of the signer service: validates via the
`ProofGate` client (per-call `chain_id` omitted); on an unsafe verdict it
returns `jsonify(...), 400`, otherwise it signs and broadcasts (the `sign`
oracle) and returns `jsonify(...)` with 200.  Both returns are inside the
handler's `try`, so a `TypeError` raised by `jsonify` on the pydantic
check instances — like any exception raised during signing/broadcasting —
is converted by the `except` clause into a 500 with `str(e)`. -/
def execute (cfg : ProofGateConfig) (account_address : String)
    (to_address tx_data value : String) (guardrail_id : Option String)
    (transport : Transport) (sign : SignOutcome) : Nat × Json :=
  match ProofGate.validate cfg account_address to_address tx_data value
      guardrail_id none transport with
  | .ok validation =>
      if ¬ validation.safe then
        match validationJsonify validation with
        | .ok vj =>
            (400, .obj [("success", .bool false),
                        ("error", .str ("Transaction blocked by ProofGate: " ++ validation.reason)),
                        ("validation", vj)])
        | .error m =>
            (500, .obj [("success", .bool false), ("error", .str m)])
      else
        match sign with
        | .sent txHash =>
            match validationJsonify validation with
            | .ok vj =>
                (200, .obj [("success", .bool true), ("txHash", .str txHash),
                            ("validation", vj)])
            | .error m =>
                (500, .obj [("success", .bool false), ("error", .str m)])
        | .exn msg =>
            (500, .obj [("success", .bool false), ("error", .str msg)])
  | .pgError e =>
      (500, .obj [("success", .bool false), ("error", .str e.pyStr)])
  | .pydanticError =>
      (500, .obj [("success", .bool false), ("error", .str "pydantic.ValidationError")])

/-! ## Concrete instances shared by witnesses and counterexamples -/

/-- A stub client configuration (valid key, constructor defaults). -/
def stubConfig : ProofGateConfig :=
  { api_key := "pg_test", base_url := clientDefaultBaseUrl, chain_id := 56
    guardrail_id := none, timeout := 30 }

/-- The stub verdict body of spec §8: FAIL, unsafe, one critical check. -/
def stubFailBody : Json :=
  .obj [("validationId", .str "val_1"), ("result", .str "FAIL"),
        ("reason", .str "exceeds daily limit"), ("safe", .bool false),
        ("checks", .arr [.obj [("name", .str "daily_limit"), ("passed", .bool false),
                               ("details", .str "..."), ("severity", .str "critical")]]),
        ("evidenceUri", .str "https://proofgate.xyz/evidence/val_1"),
        ("chainId", .num 8453)]

/-- The parsed form of `stubFailBody`. -/
def stubFailResponse : ValidateResponse :=
  { validation_id := "val_1", result := .FAIL, reason := "exceeds daily limit"
    evidence_uri := "https://proofgate.xyz/evidence/val_1", safe := false
    checks := [{ name := "daily_limit", passed := false, details := "..."
                 severity := .critical }]
    chain_id := 8453, authenticated := false, tier := "free", backend := "local"
    on_chain_recorded := false }

/-- A stub safe verdict body: PASS and safe. -/
def stubPassBody : Json :=
  .obj [("validationId", .str "val_2"), ("result", .str "PASS"),
        ("reason", .str "all checks passed"), ("safe", .bool true),
        ("evidenceUri", .str "https://proofgate.xyz/evidence/val_2"),
        ("chainId", .num 56)]

/-- The parsed form of `stubPassBody`. -/
def stubPassResponse : ValidateResponse :=
  { validation_id := "val_2", result := .PASS, reason := "all checks passed"
    evidence_uri := "https://proofgate.xyz/evidence/val_2", safe := true
    checks := [], chain_id := 56, authenticated := false, tier := "free"
    backend := "local", on_chain_recorded := false }

/-- A deliberately inconsistent body: `result = "PASS"` yet `safe = false`.
The client passes both through without recomputing one from the other. -/
def stubInconsistentBody : Json :=
  .obj [("validationId", .str "val_3"), ("result", .str "PASS"),
        ("reason", .str "mixed signals"), ("safe", .bool false),
        ("evidenceUri", .str "ipfs://x"), ("chainId", .num 1)]

/-- The parsed form of `stubInconsistentBody`. -/
def stubInconsistentResponse : ValidateResponse :=
  { validation_id := "val_3", result := .PASS, reason := "mixed signals"
    evidence_uri := "ipfs://x", safe := false, checks := [], chain_id := 1
    authenticated := false, tier := "free", backend := "local"
    on_chain_recorded := false }

/-- A transport that answers every request with 200 and the given body. -/
def stubTransport (body : Json) : Transport :=
  fun _ => .success { statusCode := 200, body := body }

/-! ## Helper lemmas -/

theorem asStr_eq_some {o : Option Json} {s : String} (h : asStr o = some s) :
    o = some (.str s) := by
  cases o with
  | none => simp [asStr] at h
  | some j => cases j <;> simp_all [asStr]

theorem asBool_eq_some {o : Option Json} {b : Bool} (h : asBool o = some b) :
    o = some (.bool b) := by
  cases o with
  | none => simp [asBool] at h
  | some j => cases j <;> simp_all [asBool]

theorem parseVResult_eq_some {o : Option Json} {r : VResult}
    (h : parseVResult o = some r) : o = some (.str r.toWire) := by
  cases o with
  | none => simp [parseVResult] at h
  | some j =>
    cases j with
    | str s =>
      unfold parseVResult at h
      split at h
      · injection h with h2; subst h2; simp_all [VResult.toWire]
      · injection h with h2; subst h2; simp_all [VResult.toWire]
      · injection h with h2; subst h2; simp_all [VResult.toWire]
      · simp at h
    | null => simp [parseVResult] at h
    | bool b => simp [parseVResult] at h
    | num n => simp [parseVResult] at h
    | arr xs => simp [parseVResult] at h
    | obj fs => simp [parseVResult] at h

theorem parseChecks_eq_some {o : Option Json} {cs : List ValidationCheck}
    (h : parseChecks o = some cs) :
    (o = none ∧ cs = []) ∨
      ∃ xs, o = some (.arr xs) ∧ xs.mapM ValidationCheck.model_validate = some cs := by
  cases o with
  | none => simp [parseChecks] at h; simp [h]
  | some j =>
    cases j with
    | arr xs => exact .inr ⟨xs, rfl, h⟩
    | null => simp [parseChecks] at h
    | bool b => simp [parseChecks] at h
    | num n => simp [parseChecks] at h
    | str s => simp [parseChecks] at h
    | obj fs => simp [parseChecks] at h

/-- Dissecting a successful `ValidateResponse.model_validate`: each returned
field is exactly what the corresponding lookup in the body produced. -/
theorem model_validate_fields {j : Json} {r : ValidateResponse}
    (h : ValidateResponse.model_validate j = some r) :
    asStr (lookupAliased j "validationId" "validation_id") = some r.validation_id ∧
    parseVResult (j.getField "result") = some r.result ∧
    asStr (j.getField "reason") = some r.reason ∧
    asBool (j.getField "safe") = some r.safe ∧
    parseChecks (j.getField "checks") = some r.checks := by
  simp only [ValidateResponse.model_validate, bind, Option.bind_eq_some, Option.pure_def,
    Option.some.injEq] at h
  obtain ⟨vid, hvid, res, hres, reason, hreason, ev, hev, safe, hsafe, checks, hchecks,
    cid, hcid, auth, hauth, tier, htier, backend, hbackend, ocr, hocr, hr⟩ := h
  subst hr
  exact ⟨hvid, hres, hreason, hsafe, hchecks⟩

/-- An empty key never has the `pg_` argument as a leading piece. -/
theorem pyStartsWith_ne_empty {k : String} (h : pyStartsWith k "pg_" = true) :
    k ≠ "" := by
  intro he
  subst he
  exact absurd h (by decide)

/-! ## Claims -/

/-- Claim C7: for identical configuration, call arguments and transport
response, the synchronous `ProofGate` client and the asynchronous
`AsyncProofGate` client build the same HTTP request and produce the same
outcome — the same parsed response or the same error with the same kind,
message and status code; they differ only in how the transport is awaited
(which the embedding abstracts away). -/
theorem sync_async_equivalence :
    (∀ k b c g t, AsyncProofGate.init k b c g t = ProofGate.init k b c g t) ∧
    (∀ tr m p j, AsyncProofGate._request tr m p j = ProofGate._request tr m p j) ∧
    (∀ cfg fa toa d v g c,
      AsyncProofGate.validateBody cfg fa toa d v g c =
        ProofGate.validateBody cfg fa toa d v g c) ∧
    (∀ cfg fa toa d v g c,
      AsyncProofGate.validateHttpRequest cfg fa toa d v g c =
        ProofGate.validateHttpRequest cfg fa toa d v g c) ∧
    (∀ cfg fa toa d v g c tr,
      AsyncProofGate.validate cfg fa toa d v g c tr =
        ProofGate.validate cfg fa toa d v g c tr) ∧
    (∀ cfg fa toa d v g c tr,
      AsyncProofGate.validate_or_throw cfg fa toa d v g c tr =
        ProofGate.validate_or_throw cfg fa toa d v g c tr) :=
  ⟨fun _ _ _ _ _ => rfl, fun _ _ _ _ => rfl, fun _ _ _ _ _ _ _ => rfl,
   fun _ _ _ _ _ _ _ => rfl, fun _ _ _ _ _ _ _ _ => rfl, fun _ _ _ _ _ _ _ _ => rfl⟩

/-- Claim C1: whenever the underlying `validate` yields a response, the
throwing variant (sync and async) returns it unchanged when `safe = true`
and raises a `VALIDATION_FAILED` `ProofGateError` whose message equals the
response's `reason` and which carries the full response (hence the exact
same reason and checks) when `safe = false`. -/
theorem validate_or_throw_gate (cfg : ProofGateConfig) (fa toa d v : String)
    (g : Option String) (c : Option Int) (tr : Transport) (r : ValidateResponse)
    (h : ProofGate.validate cfg fa toa d v g c tr = .ok r) :
    AsyncProofGate.validate cfg fa toa d v g c tr = .ok r ∧
    (r.safe = true →
      ProofGate.validate_or_throw cfg fa toa d v g c tr = .ok r ∧
      AsyncProofGate.validate_or_throw cfg fa toa d v g c tr = .ok r) ∧
    (r.safe = false →
      ProofGate.validate_or_throw cfg fa toa d v g c tr =
        .pgError { message := .str r.reason, code := "VALIDATION_FAILED"
                   status_code := none, validation_result := some r } ∧
      AsyncProofGate.validate_or_throw cfg fa toa d v g c tr =
        .pgError { message := .str r.reason, code := "VALIDATION_FAILED"
                   status_code := none, validation_result := some r }) := by
  have hA : AsyncProofGate.validate_or_throw cfg fa toa d v g c tr
      = ProofGate.validate_or_throw cfg fa toa d v g c tr := rfl
  refine ⟨h, ?_, ?_⟩
  · intro hs
    have hone : ProofGate.validate_or_throw cfg fa toa d v g c tr = .ok r := by
      unfold ProofGate.validate_or_throw
      rw [h]
      simp [hs]
    exact ⟨hone, hA.trans hone⟩
  · intro hs
    have hone : ProofGate.validate_or_throw cfg fa toa d v g c tr =
        .pgError { message := .str r.reason, code := "VALIDATION_FAILED"
                   status_code := none, validation_result := some r } := by
      unfold ProofGate.validate_or_throw
      rw [h]
      simp [hs]
    exact ⟨hone, hA.trans hone⟩

/-- Concrete run of claim C1: against the unsafe stub verdict of spec §8
the throwing variant raises `VALIDATION_FAILED` with the stub reason and
the full response attached; against a safe stub it returns it unchanged. -/
theorem validate_or_throw_gate_witness :
    ProofGate.validate_or_throw stubConfig "0xA" "0xB" "0xa9059cbb" "0" none none
        (stubTransport stubFailBody) =
      .pgError { message := .str "exceeds daily limit", code := "VALIDATION_FAILED"
                 status_code := none, validation_result := some stubFailResponse } ∧
    AsyncProofGate.validate_or_throw stubConfig "0xA" "0xB" "0xa9059cbb" "0" none none
        (stubTransport stubPassBody) = .ok stubPassResponse := by
  constructor
  · exact ((validate_or_throw_gate stubConfig "0xA" "0xB" "0xa9059cbb" "0" none none
      (stubTransport stubFailBody) stubFailResponse (by rfl)).2.2 (by rfl)).1
  · exact ((validate_or_throw_gate stubConfig "0xA" "0xB" "0xa9059cbb" "0" none none
      (stubTransport stubPassBody) stubPassResponse (by rfl)).2.1 (by rfl)).2

/-- Claim C3: constructing either client with an empty API key, or a key
not starting with `pg_`, raises inside the constructor with an empty effect
list — so before any HTTP session is created — and the constructor never
performs a network call on any path; a non-empty `pg_`-keyed construction
does not raise and creates exactly one session. -/
theorem ctor_key_validation (k b : String) (c : Int) (g : Option String) (t : Nat) :
    (k = "" →
      AsyncProofGate.init k b c g t =
        ([], .error { message := .str "API key is required. Get one at https://www.proofgate.xyz/dashboard"
                      code := "MISSING_API_KEY", status_code := none, validation_result := none }) ∧
      ProofGate.init k b c g t =
        ([], .error { message := .str "API key is required. Get one at https://www.proofgate.xyz/dashboard"
                      code := "MISSING_API_KEY", status_code := none, validation_result := none })) ∧
    (k ≠ "" → pyStartsWith k "pg_" = false →
      AsyncProofGate.init k b c g t =
        ([], .error { message := .str "Invalid API key format. Keys start with \"pg_\""
                      code := "INVALID_API_KEY", status_code := none, validation_result := none }) ∧
      ProofGate.init k b c g t =
        ([], .error { message := .str "Invalid API key format. Keys start with \"pg_\""
                      code := "INVALID_API_KEY", status_code := none, validation_result := none })) ∧
    (k ≠ "" → pyStartsWith k "pg_" = true →
      AsyncProofGate.init k b c g t =
        ([.createSession b t k],
         .ok { api_key := k, base_url := b, chain_id := c, guardrail_id := g, timeout := t }) ∧
      ProofGate.init k b c g t =
        ([.createSession b t k],
         .ok { api_key := k, base_url := b, chain_id := c, guardrail_id := g, timeout := t })) ∧
    (∀ req, InitEffect.networkCall req ∉ (AsyncProofGate.init k b c g t).1 ∧
            InitEffect.networkCall req ∉ (ProofGate.init k b c g t).1) := by
  refine ⟨?_, ?_, ?_, ?_⟩
  · intro hk
    subst hk
    constructor <;> rfl
  · intro hk hpg
    constructor <;>
      simp [AsyncProofGate.init, ProofGate.init, hk, hpg]
  · intro hk hpg
    constructor <;>
      simp [AsyncProofGate.init, ProofGate.init, hk, hpg, ProofGateConfig.model_construct]
  · intro req
    refine ⟨?_, ?_⟩
    · unfold AsyncProofGate.init
      split
      · simp
      · split <;> simp
    · unfold ProofGate.init
      split
      · simp
      · split <;> simp

/-- Concrete runs of claim C3: an empty key and a `sk_`-keyed construction
raise before creating any session, a `pg_`-keyed one succeeds with exactly
one session created. -/
theorem ctor_key_validation_witness :
    ProofGate.init "" clientDefaultBaseUrl 56 none 30 =
      ([], .error { message := .str "API key is required. Get one at https://www.proofgate.xyz/dashboard"
                    code := "MISSING_API_KEY", status_code := none, validation_result := none }) ∧
    AsyncProofGate.init "sk_bad" clientDefaultBaseUrl 56 none 30 =
      ([], .error { message := .str "Invalid API key format. Keys start with \"pg_\""
                    code := "INVALID_API_KEY", status_code := none, validation_result := none }) ∧
    ProofGate.init "pg_live" clientDefaultBaseUrl 56 none 30 =
      ([.createSession clientDefaultBaseUrl 30 "pg_live"],
       .ok { api_key := "pg_live", base_url := clientDefaultBaseUrl, chain_id := 56
             guardrail_id := none, timeout := 30 }) := by
  refine ⟨?_, ?_, ?_⟩
  · exact ((ctor_key_validation "" clientDefaultBaseUrl 56 none 30).1 rfl).2
  · exact ((ctor_key_validation "sk_bad" clientDefaultBaseUrl 56 none 30).2.1
      (by decide) (by decide)).1
  · exact ((ctor_key_validation "pg_live" clientDefaultBaseUrl 56 none 30).2.2.1
      (by decide) (by decide)).2

/-- Claim C10: constructing either client without an explicit `chain_id`
(so with the constructor's own default, 56) yields a configuration whose
`chain_id` is 56, even though `ProofGateConfig` declares its model-level
default as 8453; the constructor always passes its `chain_id` argument into
the config, so the 8453 default is unreachable via client construction. -/
theorem ctor_chain_id_default :
    (∀ k b g t cfg, (AsyncProofGate.init k b clientDefaultChainId g t).2 = .ok cfg →
      cfg.chain_id = 56) ∧
    (∀ k b g t cfg, (ProofGate.init k b clientDefaultChainId g t).2 = .ok cfg →
      cfg.chain_id = 56) ∧
    (∀ k b c g t cfg, (AsyncProofGate.init k b c g t).2 = .ok cfg → cfg.chain_id = c) ∧
    (∀ k b c g t cfg, (ProofGate.init k b c g t).2 = .ok cfg → cfg.chain_id = c) ∧
    (∀ k, (ProofGateConfig.model_construct
      { api_key := k, base_url := none, chain_id := none, guardrail_id := none
        timeout := none }).chain_id = 8453) ∧
    clientDefaultChainId = 56 ∧ (56 : Int) ≠ 8453 := by
  have hAsync : ∀ (k b : String) (c : Int) (g : Option String) (t : Nat)
      (cfg : ProofGateConfig),
      (AsyncProofGate.init k b c g t).2 = .ok cfg → cfg.chain_id = c := by
    intro k b c g t cfg h
    unfold AsyncProofGate.init at h
    split at h
    · simp at h
    · split at h
      · simp at h
      · simp only [ProofGateConfig.model_construct, Option.getD_some] at h
        simp only [Except.ok.injEq] at h
        subst h
        rfl
  have hSync : ∀ (k b : String) (c : Int) (g : Option String) (t : Nat)
      (cfg : ProofGateConfig),
      (ProofGate.init k b c g t).2 = .ok cfg → cfg.chain_id = c := by
    intro k b c g t cfg h
    unfold ProofGate.init at h
    split at h
    · simp at h
    · split at h
      · simp at h
      · simp only [ProofGateConfig.model_construct, Option.getD_some] at h
        simp only [Except.ok.injEq] at h
        subst h
        rfl
  refine ⟨fun k b g t cfg h => hAsync k b clientDefaultChainId g t cfg h,
          fun k b g t cfg h => hSync k b clientDefaultChainId g t cfg h,
          hAsync, hSync, fun k => rfl, rfl, by decide⟩

/-- Claim C2: for every 2xx response whose JSON body deserializes to the
`ValidateResponse` schema, `validate` (sync and async) returns the parsed
object without raising — also for unsafe or FAIL verdicts — and the
returned `safe`, `result`, `reason` and `checks` are exactly the
corresponding fields of the server body, passed through, not recomputed. -/
theorem validate_2xx_passthrough (cfg : ProofGateConfig) (fa toa d v : String)
    (g : Option String) (c : Option Int) (status : Nat) (body : Json)
    (r : ValidateResponse)
    (hst : isSuccessStatus status = true)
    (hp : ValidateResponse.model_validate body = some r) :
    ProofGate.validate cfg fa toa d v g c
        (fun _ => .success { statusCode := status, body := body }) = .ok r ∧
    AsyncProofGate.validate cfg fa toa d v g c
        (fun _ => .success { statusCode := status, body := body }) = .ok r ∧
    Json.getField body "safe" = some (.bool r.safe) ∧
    Json.getField body "result" = some (.str r.result.toWire) ∧
    Json.getField body "reason" = some (.str r.reason) ∧
    parseChecks (Json.getField body "checks") = some r.checks := by
  obtain ⟨hvid, hres, hreason, hsafe, hchecks⟩ := model_validate_fields hp
  have hmain : ProofGate.validate cfg fa toa d v g c
      (fun _ => .success { statusCode := status, body := body }) = .ok r := by
    unfold ProofGate.validate ProofGate._request
    simp [hst, hp]
  exact ⟨hmain, hmain, asBool_eq_some hsafe, parseVResult_eq_some hres,
    asStr_eq_some hreason, hchecks⟩

/-- Concrete run of claim C2: a body with `result = "PASS"` yet
`safe = false` is returned as-is — neither field is recomputed from the
other, and nothing is raised although the verdict is unsafe. -/
theorem validate_2xx_passthrough_witness :
    ProofGate.validate stubConfig "0xA" "0xB" "0xdata" "0" none none
        (fun _ => .success { statusCode := 200, body := stubInconsistentBody }) =
      .ok stubInconsistentResponse ∧
    stubInconsistentResponse.safe = false ∧
    stubInconsistentResponse.result = .PASS := by
  refine ⟨?_, rfl, rfl⟩
  exact (validate_2xx_passthrough stubConfig "0xA" "0xB" "0xdata" "0" none none 200
    stubInconsistentBody stubInconsistentResponse (by decide) (by rfl)).1

/-- Claim C4 as stated fails on the code: this 500 response body contains
an `error` field (with the empty string as value), yet the raised API error
carries the fallback message "HTTP 500", not that field's value, because
`data.get("error") or ...` drops falsy values. -/
theorem error_mapping_counterexample :
    ProofGate._request
        (fun _ => .success { statusCode := 500, body := .obj [("error", .str "")] })
        "GET" "/evidence/val_1" none =
      .pgError { message := .str "HTTP 500", code := "API_ERROR"
                 status_code := some 500, validation_result := none } ∧
    Json.getField (.obj [("error", .str "")]) "error" = some (.str "") ∧
    Json.str "HTTP 500" ≠ Json.str "" := by
  refine ⟨rfl, rfl, by simp⟩

/-- Claim C4 amended: for every client method, a non-2xx response whose
body has a truthy `error` field surfaces as an API error carrying that
value and the status code; with `error` absent or falsy, a truthy
`message` field is carried; with both absent or falsy the message falls
back to "HTTP <status>".  A transport timeout surfaces as `TIMEOUT`
(never `NETWORK_ERROR`), and any other transport failure surfaces as
`NETWORK_ERROR` carrying the failure's message. -/
theorem error_mapping_amended (tr : Transport) (m p : String) (j : Option Json) :
    (∀ (fields : List (String × Json)) (status : Nat),
      tr { method := m, path := p, body := j } =
          .success { statusCode := status, body := .obj fields } →
      isSuccessStatus status = false →
        (∀ e, Json.getField (.obj fields) "error" = some e → jsonTruthy e = true →
          ProofGate._request tr m p j =
            .pgError { message := e, code := "API_ERROR", status_code := some status
                       validation_result := none } ∧
          AsyncProofGate._request tr m p j =
            .pgError { message := e, code := "API_ERROR", status_code := some status
                       validation_result := none }) ∧
        (jsonTruthy (pyGet (.obj fields) "error") = false →
          ∀ msg, Json.getField (.obj fields) "message" = some msg →
          jsonTruthy msg = true →
          ProofGate._request tr m p j =
            .pgError { message := msg, code := "API_ERROR", status_code := some status
                       validation_result := none } ∧
          AsyncProofGate._request tr m p j =
            .pgError { message := msg, code := "API_ERROR", status_code := some status
                       validation_result := none }) ∧
        (jsonTruthy (pyGet (.obj fields) "error") = false →
          jsonTruthy (pyGet (.obj fields) "message") = false →
          ProofGate._request tr m p j =
            .pgError { message := .str ("HTTP " ++ toString status), code := "API_ERROR"
                       status_code := some status, validation_result := none } ∧
          AsyncProofGate._request tr m p j =
            .pgError { message := .str ("HTTP " ++ toString status), code := "API_ERROR"
                       status_code := some status, validation_result := none })) ∧
    (∀ msg, tr { method := m, path := p, body := j } = .exn true msg →
      ProofGate._request tr m p j =
        .pgError { message := .str "Request timeout", code := "TIMEOUT"
                   status_code := none, validation_result := none } ∧
      AsyncProofGate._request tr m p j =
        .pgError { message := .str "Request timeout", code := "TIMEOUT"
                   status_code := none, validation_result := none }) ∧
    (∀ msg, tr { method := m, path := p, body := j } = .exn false msg →
      ProofGate._request tr m p j =
        .pgError { message := .str msg, code := "NETWORK_ERROR"
                   status_code := none, validation_result := none } ∧
      AsyncProofGate._request tr m p j =
        .pgError { message := .str msg, code := "NETWORK_ERROR"
                   status_code := none, validation_result := none }) := by
  have hA : AsyncProofGate._request tr m p j = ProofGate._request tr m p j := rfl
  refine ⟨?_, ?_, ?_⟩
  · intro fields status htr hst
    refine ⟨?_, ?_, ?_⟩
    · intro e hget htru
      have hone : ProofGate._request tr m p j =
          .pgError { message := e, code := "API_ERROR", status_code := some status
                     validation_result := none } := by
        unfold ProofGate._request
        rw [htr]
        simp [hst, pyOr, pyGet, hget, htru]
      exact ⟨hone, hA.trans hone⟩
    · intro hfalsy msg hget htru
      have hone : ProofGate._request tr m p j =
          .pgError { message := msg, code := "API_ERROR", status_code := some status
                     validation_result := none } := by
        unfold ProofGate._request
        rw [htr]
        simp only [pyGet] at hfalsy
        simp [hst, pyOr, pyGet, hfalsy, hget, htru]
      exact ⟨hone, hA.trans hone⟩
    · intro hfalsy1 hfalsy2
      have hone : ProofGate._request tr m p j =
          .pgError { message := .str ("HTTP " ++ toString status), code := "API_ERROR"
                     status_code := some status, validation_result := none } := by
        unfold ProofGate._request
        rw [htr]
        simp only [pyGet] at hfalsy1 hfalsy2
        simp [hst, pyOr, pyGet, hfalsy1, hfalsy2]
      exact ⟨hone, hA.trans hone⟩
  · intro msg htr
    have hone : ProofGate._request tr m p j =
        .pgError { message := .str "Request timeout", code := "TIMEOUT"
                   status_code := none, validation_result := none } := by
      unfold ProofGate._request
      rw [htr]
    exact ⟨hone, hA.trans hone⟩
  · intro msg htr
    have hone : ProofGate._request tr m p j =
        .pgError { message := .str msg, code := "NETWORK_ERROR"
                   status_code := none, validation_result := none } := by
      unfold ProofGate._request
      rw [htr]
    exact ⟨hone, hA.trans hone⟩

/-- Concrete runs of the amended claim C4: a 404 with `{"error": "not
found"}` surfaces as API error "not found" with status 404, and a raised
timeout surfaces as `TIMEOUT`. -/
theorem error_mapping_amended_witness :
    ProofGate._request
        (fun _ => .success { statusCode := 404, body := .obj [("error", .str "not found")] })
        "GET" "/evidence/val_9" none =
      .pgError { message := .str "not found", code := "API_ERROR"
                 status_code := some 404, validation_result := none } ∧
    ProofGate._request (fun _ => .exn true "timed out") "GET" "/validate" none =
      .pgError { message := .str "Request timeout", code := "TIMEOUT"
                 status_code := none, validation_result := none } := by
  constructor
  · exact (((error_mapping_amended
      (fun _ => .success { statusCode := 404, body := .obj [("error", .str "not found")] })
      "GET" "/evidence/val_9" none).1 [("error", .str "not found")] 404 rfl
      (by decide)).1 (.str "not found") rfl (by decide)).1
  · exact ((error_mapping_amended (fun _ => .exn true "timed out")
      "GET" "/validate" none).2.1 "timed out" rfl).1

/-- Claim C5 as stated fails on the code: a 2xx response whose body fails
schema validation (here the empty object) raises `pydantic.ValidationError`,
which is not a variant of the `ProofGateError` family — there is no
`DecodeError` kind a caller could pattern-match on. -/
theorem decode_error_counterexample :
    ProofGate.validate stubConfig "0xA" "0xB" "0xdata" "0" none none
        (stubTransport (.obj [])) = .pydanticError ∧
    isProofGateFamilyError (ProofGate.validate stubConfig "0xA" "0xB" "0xdata" "0"
        none none (stubTransport (.obj []))) = false :=
  ⟨rfl, rfl⟩

/-- Claim C5 amended: a 2xx response whose body fails schema validation
makes `validate` (sync and async) raise `pydantic.ValidationError`, which
is not a member of the `ProofGateError` family. -/
theorem decode_error_amended (cfg : ProofGateConfig) (fa toa d v : String)
    (g : Option String) (c : Option Int) (status : Nat) (body : Json)
    (hst : isSuccessStatus status = true)
    (hp : ValidateResponse.model_validate body = none) :
    ProofGate.validate cfg fa toa d v g c
        (fun _ => .success { statusCode := status, body := body }) = .pydanticError ∧
    AsyncProofGate.validate cfg fa toa d v g c
        (fun _ => .success { statusCode := status, body := body }) = .pydanticError ∧
    isProofGateFamilyError (ProofGate.validate cfg fa toa d v g c
        (fun _ => .success { statusCode := status, body := body })) = false := by
  have hmain : ProofGate.validate cfg fa toa d v g c
      (fun _ => .success { statusCode := status, body := body }) = .pydanticError := by
    unfold ProofGate.validate ProofGate._request
    simp [hst, hp]
  exact ⟨hmain, hmain, by rw [hmain]; rfl⟩

/-- Concrete run of the amended claim C5: a 200 response with body `{}`
raises the (non-`ProofGateError`) pydantic validation error. -/
theorem decode_error_amended_witness :
    AsyncProofGate.validate stubConfig "0xA" "0xB" "0xdata" "0" none none
        (fun _ => .success { statusCode := 200, body := .obj [] }) = .pydanticError :=
  (decode_error_amended stubConfig "0xA" "0xB" "0xdata" "0" none none 200 (.obj [])
    (by decide) (by rfl)).2.1

/-- Claim C6 as stated fails on the code: with per-call `chain_id = 0` and
`guardrail_id = ""` (falsy values) the built body carries the configured
defaults (`chainId = 56`, `guardrailId = null` here), not the per-call
values, because the client combines them with Python `or`. -/
theorem validate_body_falsy_counterexample :
    Json.getField (ProofGate.validateBody stubConfig "0xA" "0xB" "0xdata" "0"
        (some "") (some 0)) "chainId" = some (.num 56) ∧
    Json.num 56 ≠ Json.num 0 ∧
    Json.getField (ProofGate.validateBody stubConfig "0xA" "0xB" "0xdata" "0"
        (some "") (some 0)) "guardrailId" = some Json.null ∧
    Json.null ≠ Json.str "" := by
  refine ⟨rfl, by simp, rfl, by simp⟩

/-- Claim C6 amended: every validate call issues a single POST to
`/validate` whose body has exactly the keys `from`, `to`, `data`, `value`,
`guardrailId`, `chainId`; `guardrailId` is the per-call guardrail when that
is provided and truthy (non-empty) and otherwise the configured default,
and `chainId` is the per-call chain id when provided and nonzero and
otherwise the configured default — falsy per-call values (`0`, `""`) fall
back to the defaults. -/
theorem validate_request_shape (cfg : ProofGateConfig) (fa toa d v : String)
    (g : Option String) (c : Option Int) :
    (ProofGate.validateHttpRequest cfg fa toa d v g c).method = "POST" ∧
    (ProofGate.validateHttpRequest cfg fa toa d v g c).path = "/validate" ∧
    (ProofGate.validateHttpRequest cfg fa toa d v g c).body =
      some (ProofGate.validateBody cfg fa toa d v g c) ∧
    (ProofGate.validateBody cfg fa toa d v g c).keys =
      ["from", "to", "data", "value", "guardrailId", "chainId"] ∧
    Json.getField (ProofGate.validateBody cfg fa toa d v g c) "from" =
      some (.str fa) ∧
    Json.getField (ProofGate.validateBody cfg fa toa d v g c) "to" =
      some (.str toa) ∧
    Json.getField (ProofGate.validateBody cfg fa toa d v g c) "data" =
      some (.str d) ∧
    Json.getField (ProofGate.validateBody cfg fa toa d v g c) "value" =
      some (.str v) ∧
    (∀ s, g = some s → s ≠ "" →
      Json.getField (ProofGate.validateBody cfg fa toa d v g c) "guardrailId" =
        some (.str s)) ∧
    (g = none ∨ g = some "" →
      Json.getField (ProofGate.validateBody cfg fa toa d v g c) "guardrailId" =
        some (jsonOfOptStr cfg.guardrail_id)) ∧
    (∀ n, c = some n → n ≠ 0 →
      Json.getField (ProofGate.validateBody cfg fa toa d v g c) "chainId" =
        some (.num n)) ∧
    (c = none ∨ c = some 0 →
      Json.getField (ProofGate.validateBody cfg fa toa d v g c) "chainId" =
        some (.num cfg.chain_id)) ∧
    (∀ tr tr2 : Transport,
      tr (ProofGate.validateHttpRequest cfg fa toa d v g c) =
        tr2 (ProofGate.validateHttpRequest cfg fa toa d v g c) →
      ProofGate.validate cfg fa toa d v g c tr =
        ProofGate.validate cfg fa toa d v g c tr2) ∧
    AsyncProofGate.validateBody cfg fa toa d v g c =
      ProofGate.validateBody cfg fa toa d v g c := by
  have hguard : Json.getField (ProofGate.validateBody cfg fa toa d v g c)
      "guardrailId" = some (jsonOfOptStr (pyOrStr g cfg.guardrail_id)) := rfl
  have hchain : Json.getField (ProofGate.validateBody cfg fa toa d v g c)
      "chainId" = some (.num (pyOrInt c cfg.chain_id)) := rfl
  refine ⟨rfl, rfl, rfl, rfl, rfl, rfl, rfl, rfl, ?_, ?_, ?_, ?_, ?_, rfl⟩
  · intro s hg hs
    subst hg
    rw [hguard]
    simp [pyOrStr, hs, jsonOfOptStr]
  · intro hg
    rw [hguard]
    rcases hg with h | h <;> subst h <;> simp [pyOrStr]
  · intro n hc hn
    subst hc
    rw [hchain]
    simp [pyOrInt, hn]
  · intro hc
    rw [hchain]
    rcases hc with h | h <;> subst h <;> simp [pyOrInt]
  · intro tr tr2 h
    unfold ProofGate.validateHttpRequest at h
    unfold ProofGate.validate ProofGate._request
    rw [h]

/-- Concrete runs of the amended claim C6: a truthy per-call guardrail and
chain id are sent as given; `chain_id = 0` falls back to the configured 56. -/
theorem validate_request_shape_witness :
    Json.getField (ProofGate.validateBody stubConfig "0xA" "0xB" "0xdata" "0"
        (some "gr_1") (some 7)) "guardrailId" = some (.str "gr_1") ∧
    Json.getField (ProofGate.validateBody stubConfig "0xA" "0xB" "0xdata" "0"
        (some "gr_1") (some 7)) "chainId" = some (.num 7) ∧
    Json.getField (ProofGate.validateBody stubConfig "0xA" "0xB" "0xdata" "0"
        none (some 0)) "chainId" = some (.num 56) := by
  refine ⟨?_, ?_, ?_⟩
  · exact (validate_request_shape stubConfig "0xA" "0xB" "0xdata" "0"
      (some "gr_1") (some 7)).2.2.2.2.2.2.2.2.1 "gr_1" rfl (by decide)
  · exact (validate_request_shape stubConfig "0xA" "0xB" "0xdata" "0"
      (some "gr_1") (some 7)).2.2.2.2.2.2.2.2.2.2.1 7 rfl (by decide)
  · exact (validate_request_shape stubConfig "0xA" "0xB" "0xdata" "0"
      none (some 0)).2.2.2.2.2.2.2.2.2.2.2.1 (.inr rfl)

/-- Claim C8: spec §4.2 documents a 400 response carrying
`validation:{result,reason,checks}` for an unsafe verdict and a 200 with
`txHash` for a safe one, but the handler cannot produce either for any
verdict with a non-empty checks list: `jsonify` raises `TypeError` on the
pydantic `ValidationCheck` instances and the handler's own `except` turns
it into a 500.  Evaluated at the unsafe stub verdict of spec §8 (one
critical check): the service answers 500 with the serialization error
message, not the claimed 400 body with per-check detail. -/
theorem signer_execute_jsonify_bug :
    execute stubConfig "0xSigner" "0xB" "0xdata" "0" none
        (stubTransport stubFailBody) (.sent "0xhash") =
      (500, .obj [("success", .bool false),
                  ("error", .str "Object of type ValidationCheck is not JSON serializable")]) ∧
    stubFailResponse.safe = false ∧
    stubFailResponse.checks ≠ [] ∧
    (500 : Nat) ≠ 400 := by
  refine ⟨rfl, rfl, by decide, by decide⟩

/-- Claim C9: `is_transaction_safe` returns exactly the boolean `safe`
field of the validation response and does not raise merely because the
transaction was judged unsafe. -/
theorem is_transaction_safe_spec (k fa toa d v : String) (tr : Transport)
    (r : ValidateResponse)
    (hk : pyStartsWith k "pg_" = true)
    (h : ProofGate.validate
        { api_key := k, base_url := clientDefaultBaseUrl
          chain_id := clientDefaultChainId, guardrail_id := none
          timeout := clientDefaultTimeout } fa toa d v none none tr = .ok r) :
    is_transaction_safe k fa toa d v tr = .ok r.safe := by
  have hk0 : k ≠ "" := pyStartsWith_ne_empty hk
  unfold is_transaction_safe ProofGate.init
  simp only [hk0, hk, ProofGateConfig.model_construct, Option.getD_some,
    not_true_eq_false, if_false, ite_false, if_neg, not_false_eq_true, ite_true]
  rw [h]

/-- Concrete run of claim C9: against the stub server returning the unsafe
verdict of spec §8, `is_transaction_safe` returns `false` without raising. -/
theorem is_transaction_safe_spec_witness :
    is_transaction_safe "pg_xxx" "0xA" "0xB" "0xa9059cbb" "0"
      (stubTransport stubFailBody) = .ok false :=
  is_transaction_safe_spec "pg_xxx" "0xA" "0xB" "0xa9059cbb" "0"
    (stubTransport stubFailBody) stubFailResponse (by decide) (by rfl)

/-- Concrete run of claim C10: a default-chain construction produces a
configuration with `chain_id = 56`, while the pydantic model default
(reachable only by omitting `chain_id` at the model level, which the
constructors never do) is 8453. -/
theorem ctor_chain_id_default_witness :
    ({ api_key := "pg_live", base_url := clientDefaultBaseUrl, chain_id := 56
       guardrail_id := none, timeout := 30 } : ProofGateConfig).chain_id = 56 ∧
    (ProofGateConfig.model_construct
      { api_key := "pg_live", base_url := none, chain_id := none
        guardrail_id := none, timeout := none }).chain_id = 8453 := by
  constructor
  · exact ctor_chain_id_default.2.1 "pg_live" clientDefaultBaseUrl none 30
      { api_key := "pg_live", base_url := clientDefaultBaseUrl, chain_id := 56
        guardrail_id := none, timeout := 30 } (by rfl)
  · exact ctor_chain_id_default.2.2.2.2.1 "pg_live"
